import Mathlib

/-
  Shallow embedding of the Volcano Hybrid Home Assistant integration
  (src/volcano/api.py and src/__init__.py), together with theorems that
  settle the specification claims about it.

  Temperatures are modelled as rationals; byte strings as lists of
  naturals (each entry a byte value); GATT I/O is modelled by an explicit
  environment (`Device`) giving the outcome of each read/write, and every
  operation reports the error it raised (if any), the object state after
  the call, and the list of GATT operations it issued.
-/

namespace VolcanoHybrid

/-- Error classes raised by the modelled code paths.  `volcano_connection_error`
is `VolcanoConnectionError` from src/volcano/exceptions.py (the `ConnectionError` taxonomy class of the spec); `value_error` is Python `ValueError`;
`attribute_error` is Python `AttributeError`. -/
inductive PyError where
  | volcano_connection_error
  | value_error
  | attribute_error
deriving DecidableEq

/-- The GATT characteristics named in src/const.py. -/
inductive GattChar where
  | target_temp
  | current_temp
  | status_register
  | heat_on
  | heat_off
  | fan_on
  | fan_off
  | screen_brightness
  | ble_firmware
  | volcano_firmware
  | serial_number
  | hours_of_operation
  | minutes_of_operation
deriving DecidableEq

/-- The underlying BleakClient, reduced to the one observable the code
consults: whether the client reports itself connected. -/
structure ClientState where
  client_connected : Bool
deriving DecidableEq

/-- Instance state of `VolcanoAPI`.  `status_update_callback` is
`Option (Option Unit)`: `none` means the Python attribute
`_status_update_callback` was never assigned (accessing it raises
`AttributeError`), `some none` means it was assigned the value `None`,
`some (some ())` means a real callback was assigned. -/
structure VolcanoState where
  client : Option ClientState
  is_connected_flag : Bool
  disconnect_callback : Option Unit
  status_update_callback : Option (Option Unit)
  current_temperature : ℚ
  target_temperature : ℚ
  heat_on : Bool
  fan_on : Bool
deriving DecidableEq

/-- `VolcanoAPI.__init__` (src/volcano/api.py lines 41-51): sets `_client`
to `None`, `_is_connected` to `False`, `_disconnect_callback` to `None`,
temperatures to 0.0 and both booleans to `False`.  It never assigns
`_status_update_callback`, so that attribute slot is `none` (unset). -/
def init_volcano_state : VolcanoState where
  client := none
  is_connected_flag := false
  disconnect_callback := none
  status_update_callback := none
  current_temperature := 0
  target_temperature := 0
  heat_on := false
  fan_on := false

/-- Modelled from the spec: the `is_connected` property of `VolcanoAPI` is
absent from src/volcano/api.py (only its uses appear there and in the other
modules).  Spec section 4.1: true only if both an internal flag is set and
the underlying client reports itself connected. -/
def is_connected (st : VolcanoState) : Bool :=
  st.is_connected_flag &&
    (match st.client with
     | some c => c.client_connected
     | none => false)

/-- A GATT operation issued by an API call. -/
inductive GattOp where
  | write (c : GattChar) (data : List ℕ)
  | read (c : GattChar)
deriving DecidableEq

/-- Environment giving the outcome of GATT I/O: whether a write succeeds,
and what a read returns (`none` = the read raises). -/
structure Device where
  write_ok : GattChar → List ℕ → Bool
  read_result : GattChar → Option (List ℕ)

/-- Result of one modelled API call: the error raised (if any), the value
returned (if any), the object state after the call, and the GATT
operations issued, in order. -/
structure OpResult (α : Type) where
  error : Option PyError
  value : Option α
  state : VolcanoState
  ops : List GattOp

/-- Python `int()` applied to a numeric value: truncation toward zero
(floor for nonnegative values, ceiling for negative ones). -/
def py_int (q : ℚ) : ℤ :=
  if 0 ≤ q then ⌊q⌋ else ⌈q⌉

/-- Python `round()` applied to a numeric value: round half to even. -/
def py_round (q : ℚ) : ℤ :=
  if q - ⌊q⌋ = 1/2 then (if 2 ∣ ⌊q⌋ then ⌊q⌋ else ⌊q⌋ + 1) else round q

/-- Python `round(x, 1)`: round to one decimal digit, half to even. -/
def py_round1 (q : ℚ) : ℚ :=
  (py_round (q * 10) : ℚ) / 10

/-- `struct.pack("<H", v)`: the two little-endian bytes of a 16-bit value
(the call sites guard `v < 65536`). -/
def pack_u16_le (v : ℕ) : List ℕ :=
  [v % 256, v / 256 % 256]

/-- The wire value computed by `set_target_temperature`
(src/volcano/api.py line 250): `temp_value = int(temperature * 10)`. -/
def encode_target_temp (temperature : ℚ) : ℕ :=
  (py_int (temperature * 10)).toNat

/-- The encoding as the spec words it (`raw = round(celsius * 10)`), for
comparison with `encode_target_temp`. -/
def spec_round_encode (celsius : ℚ) : ℤ :=
  py_round (celsius * 10)

/-- `VolcanoAPI.set_target_temperature` (src/volcano/api.py lines 241-257):
check `is_connected`, then the 40..230 range, then encode `int(T*10)` as
`<H` and write it; on write failure the raised error is wrapped into
`VolcanoConnectionError` and the cached target is left unchanged. -/
def set_target_temperature (dev : Device) (st : VolcanoState) (temperature : ℚ) :
    OpResult Unit :=
  if is_connected st = false then
    ⟨some .volcano_connection_error, none, st, []⟩
  else if ¬ (40 ≤ temperature ∧ temperature ≤ 230) then
    ⟨some .value_error, none, st, []⟩
  else
    let temp_value := encode_target_temp temperature
    let data := pack_u16_le temp_value
    if dev.write_ok .target_temp data then
      ⟨none, some (), { st with target_temperature := temperature }, [.write .target_temp data]⟩
    else
      ⟨some .volcano_connection_error, none, st, [.write .target_temp data]⟩

/-- `VolcanoAPI.set_heat_on` (src/volcano/api.py lines 259-272): check
`is_connected`, write `b"\x01"` to the heat-on characteristic, set the
cached flag optimistically; on failure the flag is set back to `False`
and the error is wrapped into `VolcanoConnectionError`. -/
def set_heat_on (dev : Device) (st : VolcanoState) : OpResult Unit :=
  if is_connected st = false then
    ⟨some .volcano_connection_error, none, st, []⟩
  else if dev.write_ok .heat_on [1] then
    ⟨none, some (), { st with heat_on := true }, [.write .heat_on [1]]⟩
  else
    ⟨some .volcano_connection_error, none, { st with heat_on := false }, [.write .heat_on [1]]⟩

/-- `VolcanoAPI.set_heat_off` (src/volcano/api.py lines 274-287). -/
def set_heat_off (dev : Device) (st : VolcanoState) : OpResult Unit :=
  if is_connected st = false then
    ⟨some .volcano_connection_error, none, st, []⟩
  else if dev.write_ok .heat_off [0] then
    ⟨none, some (), { st with heat_on := false }, [.write .heat_off [0]]⟩
  else
    ⟨some .volcano_connection_error, none, { st with heat_on := true }, [.write .heat_off [0]]⟩

/-- `VolcanoAPI.set_fan_on` (src/volcano/api.py lines 289-302). -/
def set_fan_on (dev : Device) (st : VolcanoState) : OpResult Unit :=
  if is_connected st = false then
    ⟨some .volcano_connection_error, none, st, []⟩
  else if dev.write_ok .fan_on [1] then
    ⟨none, some (), { st with fan_on := true }, [.write .fan_on [1]]⟩
  else
    ⟨some .volcano_connection_error, none, { st with fan_on := false }, [.write .fan_on [1]]⟩

/-- `VolcanoAPI.set_fan_off` (src/volcano/api.py lines 304-317). -/
def set_fan_off (dev : Device) (st : VolcanoState) : OpResult Unit :=
  if is_connected st = false then
    ⟨some .volcano_connection_error, none, st, []⟩
  else if dev.write_ok .fan_off [0] then
    ⟨none, some (), { st with fan_on := false }, [.write .fan_off [0]]⟩
  else
    ⟨some .volcano_connection_error, none, { st with fan_on := true }, [.write .fan_off [0]]⟩

/-- `VolcanoAPI.set_screen_brightness` (src/volcano/api.py lines 319-332):
check `is_connected`, then the 0..100 range, then write `bytes([b])`. -/
def set_screen_brightness (dev : Device) (st : VolcanoState) (brightness : ℤ) : OpResult Unit :=
  if is_connected st = false then
    ⟨some .volcano_connection_error, none, st, []⟩
  else if ¬ (0 ≤ brightness ∧ brightness ≤ 100) then
    ⟨some .value_error, none, st, []⟩
  else if dev.write_ok .screen_brightness [brightness.toNat] then
    ⟨none, some (), st, [.write .screen_brightness [brightness.toNat]]⟩
  else
    ⟨some .volcano_connection_error, none, st, [.write .screen_brightness [brightness.toNat]]⟩

/-- Common shape of the three string getters
`get_ble_firmware_version` / `get_volcano_firmware_version` /
`get_serial_number` (src/volcano/api.py lines 334-368): check
`is_connected`, read the characteristic, return its payload (the UTF-8
decode and trim of the payload are not modelled); a failed read is
wrapped into `VolcanoConnectionError`. -/
def read_string_char (dev : Device) (st : VolcanoState) (c : GattChar) :
    OpResult (List ℕ) :=
  if is_connected st = false then
    ⟨some .volcano_connection_error, none, st, []⟩
  else
    match dev.read_result c with
    | some data => ⟨none, some data, st, [.read c]⟩
    | none => ⟨some .volcano_connection_error, none, st, [.read c]⟩

/-- `VolcanoAPI.get_ble_firmware_version` (src/volcano/api.py lines 334-344). -/
def get_ble_firmware_version (dev : Device) (st : VolcanoState) : OpResult (List ℕ) :=
  read_string_char dev st .ble_firmware

/-- `VolcanoAPI.get_volcano_firmware_version` (src/volcano/api.py lines 346-356). -/
def get_volcano_firmware_version (dev : Device) (st : VolcanoState) : OpResult (List ℕ) :=
  read_string_char dev st .volcano_firmware

/-- `VolcanoAPI.get_serial_number` (src/volcano/api.py lines 358-368). -/
def get_serial_number (dev : Device) (st : VolcanoState) : OpResult (List ℕ) :=
  read_string_char dev st .serial_number

/-- Common shape of `get_hours_of_operation` / `get_minutes_of_operation`
(src/volcano/api.py lines 370-392): check `is_connected`, read the
characteristic and decode `struct.unpack("<H", data[:2])[0]`; a failed
read or a short payload (`struct.error`) is wrapped into
`VolcanoConnectionError`. -/
def read_u16_char (dev : Device) (st : VolcanoState) (c : GattChar) : OpResult ℕ :=
  if is_connected st = false then
    ⟨some .volcano_connection_error, none, st, []⟩
  else
    match dev.read_result c with
    | some (b0 :: b1 :: _) => ⟨none, some (b0 + 256 * b1), st, [.read c]⟩
    | some _ => ⟨some .volcano_connection_error, none, st, [.read c]⟩
    | none => ⟨some .volcano_connection_error, none, st, [.read c]⟩

/-- `VolcanoAPI.get_hours_of_operation` (src/volcano/api.py lines 370-380). -/
def get_hours_of_operation (dev : Device) (st : VolcanoState) : OpResult ℕ :=
  read_u16_char dev st .hours_of_operation

/-- `VolcanoAPI.get_minutes_of_operation` (src/volcano/api.py lines 382-392). -/
def get_minutes_of_operation (dev : Device) (st : VolcanoState) : OpResult ℕ :=
  read_u16_char dev st .minutes_of_operation

/-- The snapshot dict returned by `VolcanoAPI.get_device_state`. -/
structure DeviceSnapshot where
  current_temperature : ℚ
  target_temperature : ℚ
  heat_on : Bool
  fan_on : Bool
  connected : Bool
deriving DecidableEq

/-- `VolcanoAPI.get_device_state` (src/volcano/api.py lines 394-418): check
`is_connected`, then read the status register; if the payload has at least
one byte, heat/fan are recomputed from byte 0 with masks `0x01` and `0x02`
(NOT from the 16-bit register with masks `0x0020`/`0x2000`); a failed read
falls back to the cached state without raising.  The `connected` field of the returned snapshot is the internal `_is_connected` flag. -/
def get_device_state (dev : Device) (st : VolcanoState) : OpResult DeviceSnapshot :=
  if is_connected st = false then
    ⟨some .volcano_connection_error, none, st, []⟩
  else
    let st2 :=
      match dev.read_result .status_register with
      | some (b0 :: _) =>
          { st with heat_on := (b0 &&& 0x01) != 0, fan_on := (b0 &&& 0x02) != 0 }
      | some [] => st
      | none => st
    ⟨none,
     some ⟨st2.current_temperature, st2.target_temperature, st2.heat_on, st2.fan_on,
           st2.is_connected_flag⟩,
     st2, [.read .status_register]⟩

/-- `VolcanoAPI.set_disconnect_callback` (src/volcano/api.py lines 136-138):
assigns `_disconnect_callback` and nothing else. -/
def set_disconnect_callback (st : VolcanoState) (cb : Unit) : VolcanoState :=
  { st with disconnect_callback := some cb }

/-- `VolcanoAPI._handle_temperature_notification` (src/volcano/api.py lines
154-159): for a payload of at least two bytes, decode
`struct.unpack("<H", data[:2])[0] / 10.0` and store it as the cached
current temperature; shorter payloads are ignored. -/
def handle_temperature_notification (st : VolcanoState) (data : List ℕ) : VolcanoState :=
  match data with
  | b0 :: b1 :: _ => { st with current_temperature := ((b0 : ℚ) + 256 * b1) / 10 }
  | _ => st

/-- `VolcanoAPI._handle_status_notification` (src/volcano/api.py lines
161-200): first dereferences `self._status_update_callback` (raising
`AttributeError` when the attribute was never assigned; returning early
when it holds `None`); then, for a payload of at least two bytes, decodes
the 16-bit little-endian register `data[0] | (data[1] << 8)`, derives heat
from mask `0x0020` and fan from mask `0x2000`, updates the cached booleans
and reports whether the callback was invoked (exactly when heat or fan
changed). -/
def handle_status_notification (st : VolcanoState) (data : List ℕ) :
    Except PyError (VolcanoState × Bool) :=
  match st.status_update_callback with
  | none => .error .attribute_error
  | some none => .ok (st, false)
  | some (some _) =>
    match data with
    | b0 :: b1 :: _ =>
        let decoded := b0 ||| (b1 <<< 8)
        let new_heat_on := (decoded &&& 0x0020) != 0
        let new_fan_on := (decoded &&& 0x2000) != 0
        let heat_changed := new_heat_on != st.heat_on
        let fan_changed := new_fan_on != st.fan_on
        let st2 := { st with
          heat_on := if heat_changed then new_heat_on else st.heat_on,
          fan_on := if fan_changed then new_fan_on else st.fan_on }
        .ok (st2, heat_changed || fan_changed)
    | _ => .ok (st, false)

/-- `VolcanoAPI._update_status_from_register` (src/volcano/api.py lines
202-239): if not `is_connected`, return silently; otherwise read the
status register and, for a payload of at least two bytes, decode the
16-bit little-endian register and update the cached booleans from masks
`0x0020` (heat) and `0x2000` (fan); short payloads and read errors leave
the cache unchanged. -/
def update_status_from_register (dev : Device) (st : VolcanoState) : OpResult Unit :=
  if is_connected st = false then
    ⟨none, none, st, []⟩
  else
    match dev.read_result .status_register with
    | some (b0 :: b1 :: _) =>
        let decoded := b0 ||| (b1 <<< 8)
        let new_heat_on := (decoded &&& 0x0020) != 0
        let new_fan_on := (decoded &&& 0x2000) != 0
        let st2 := { st with
          heat_on := if new_heat_on != st.heat_on then new_heat_on else st.heat_on,
          fan_on := if new_fan_on != st.fan_on then new_fan_on else st.fan_on }
        ⟨none, none, st2, [.read .status_register]⟩
    | some _ => ⟨none, none, st, [.read .status_register]⟩
    | none => ⟨none, none, st, [.read .status_register]⟩

/-- Outcome of one iteration of the `connect` retry loop
(src/volcano/api.py lines 53-108):
`device_not_found` — `async_ble_device_from_address` returned `None` and
the raised `VolcanoConnectionError` is caught by the generic handler;
`bleak_error` — `client.connect()` raised `BleakError`;
`other_error` — `client.connect()` raised some other exception;
`connected_false` — `client.connect()` returned but the client reports
itself not connected (no exception is raised);
`success` — connected, notifications set up. -/
inductive AttemptOutcome where
  | device_not_found
  | bleak_error
  | other_error
  | connected_false
  | success
deriving DecidableEq

/-- Observable result of `VolcanoAPI.connect`: the returned value or the
raised `VolcanoConnectionError` (carrying the last underlying attempt
outcome), the number of attempts actually made, the number of 2-second
`asyncio.sleep(2)` waits performed, and the final `_client` /
`_is_connected` fields. -/
structure ConnectResult where
  result : Except AttemptOutcome Bool
  attempts : ℕ
  sleeps : ℕ
  client : Option ClientState
  flag : Bool

/-- `VolcanoAPI.connect` (src/volcano/api.py lines 53-108), with the
outcome of each attempt given as a list whose length is `max_retries`.
On success the method returns `True` immediately.  On an exception the
connected flag is cleared and, on the last attempt, a
`VolcanoConnectionError` carrying the underlying error is raised;
otherwise the partially-built client is torn down (`_client = None`) and
the loop sleeps 2 seconds before the next attempt.  An attempt that
completes with the client reporting not-connected raises nothing; after
it the client is torn down and, when it was the last attempt, the loop
falls through and the method returns `False`. -/
def connect_go : List AttemptOutcome → Option ClientState → Bool → ConnectResult
  | [], client, flag => ⟨.ok false, 0, 0, client, flag⟩
  | o :: rest, client, flag =>
    match o with
    | .success => ⟨.ok true, 1, 0, some ⟨true⟩, true⟩
    | .connected_false =>
      match rest with
      | [] => ⟨.ok false, 1, 0, none, flag⟩
      | _ :: _ =>
        let r := connect_go rest none flag
        ⟨r.result, r.attempts + 1, r.sleeps + 1, r.client, r.flag⟩
    | .device_not_found =>
      match rest with
      | [] => ⟨.error .device_not_found, 1, 0, client, false⟩
      | _ :: _ =>
        let r := connect_go rest none false
        ⟨r.result, r.attempts + 1, r.sleeps + 1, r.client, r.flag⟩
    | .bleak_error =>
      match rest with
      | [] => ⟨.error .bleak_error, 1, 0, some ⟨false⟩, false⟩
      | _ :: _ =>
        let r := connect_go rest none false
        ⟨r.result, r.attempts + 1, r.sleeps + 1, r.client, r.flag⟩
    | .other_error =>
      match rest with
      | [] => ⟨.error .other_error, 1, 0, some ⟨false⟩, false⟩
      | _ :: _ =>
        let r := connect_go rest none false
        ⟨r.result, r.attempts + 1, r.sleeps + 1, r.client, r.flag⟩

/-- `VolcanoAPI.connect` as called on a fresh or disconnected API object
(`_client = None`, `_is_connected = False`). -/
def connect (outcomes : List AttemptOutcome) : ConnectResult :=
  connect_go outcomes none false

/-
Coordinator layer (src/__init__.py).
-/

/-- `VolcanoCoordinator.__init__`: `_base_update_interval = 5`. -/
def base_update_interval : ℕ := 5

/-- `VolcanoCoordinator.__init__`: `_active_update_interval = 2`. -/
def active_update_interval : ℕ := 2

/-- `VolcanoCoordinator.__init__`: `_fast_update_interval = 1`. -/
def fast_update_interval : ℕ := 1

/-- `VolcanoCoordinator._get_dynamic_update_interval` (src/__init__.py
lines 276-300), taking the fields it extracts from the latest snapshot
(with their defaults already applied). -/
def get_dynamic_update_interval (heat_on fan_on : Bool) (current_temp target_temp : ℚ) : ℕ :=
  if fan_on = true then fast_update_interval
  else if heat_on = true ∧ 0 < target_temp ∧ target_temp - 10 < current_temp then
    fast_update_interval
  else if heat_on = true ∨ (0 < target_temp ∧ current_temp < target_temp) then
    active_update_interval
  else if 50 < current_temp then 3
  else base_update_interval

/-- Session-tracking state of `VolcanoCoordinator` (src/__init__.py lines
88-99): `last_temp` is `_last_temp` (`None` before the first poll),
`session_open` is whether `_session_start_time` is non-null, and the two
counters are `_sessions_today` / `_total_sessions`. -/
structure SessionState where
  last_temp : Option ℚ
  session_open : Bool
  sessions_today : ℕ
  total_sessions : ℕ
deriving DecidableEq

/-- The session fields of the coordinator right after `__init__`. -/
def init_session_state : SessionState :=
  ⟨none, false, 0, 0⟩

/-- `VolcanoCoordinator._detect_session_start` (src/__init__.py lines
119-140): fires a `session_started` event exactly when `_last_temp` is
set and below 50, the new current temperature is above 60, the target is
above 100 and no session is open; on firing it opens the session and
increments both counters.  Returns the new state and whether the event
fired. -/
def detect_session_start (st : SessionState) (current_temp target_temp : ℚ) :
    SessionState × Bool :=
  match st.last_temp with
  | some l =>
    if l < 50 ∧ 60 < current_temp ∧ 100 < target_temp ∧ st.session_open = false then
      ({ st with session_open := true,
                 sessions_today := st.sessions_today + 1,
                 total_sessions := st.total_sessions + 1 }, true)
    else (st, false)
  | none => (st, false)

/-- One poll of the session-start detector as driven by
`VolcanoCoordinator._async_update_data` (src/__init__.py lines 340-349):
`_detect_session_start` runs on the fresh temperatures, then `_last_temp`
is set to the new current temperature. -/
def poll_step (st : SessionState) (current_temp target_temp : ℚ) : SessionState × Bool :=
  let r := detect_session_start st current_temp target_temp
  ({ r.1 with last_temp := some current_temp }, r.2)

/-- The list of `session_started` firings over a sequence of polled
current temperatures at a fixed target. -/
def poll_fires (st : SessionState) (temps : List ℚ) (target_temp : ℚ) : List Bool :=
  match temps with
  | [] => []
  | c :: cs =>
    let r := poll_step st c target_temp
    r.2 :: poll_fires r.1 cs target_temp

/-- The duration-list maintenance performed by
`VolcanoCoordinator._detect_session_end` on a session end (src/__init__.py
lines 169-172): append the new duration, then if the list now holds more
than 100 entries drop the oldest (`pop(0)`). -/
def record_session_duration (durations : List ℚ) (d : ℚ) : List ℚ :=
  let l2 := durations ++ [d]
  if 100 < l2.length then l2.drop 1 else l2

/-- `VolcanoCoordinator.average_session_duration` (src/__init__.py lines
216-221): `None` for an empty list, else the sum over the length rounded
to one decimal. -/
def average_session_duration (durations : List ℚ) : Option ℚ :=
  if durations = [] then none
  else some (py_round1 (durations.sum / durations.length))

/-- Modelled from the spec: `VolcanoAPI.get_current_temperature` is absent
from src/volcano/api.py (only its caller `VolcanoCoordinator.
get_current_temperature` appears).  Spec section 4.3: if the read path
detects the client is absent/disconnected it transparently attempts one
reconnect before giving up and returning null rather than raising.
`reconnect_ok` is the outcome of that single reconnect attempt and
`read_val` the temperature a read would deliver; the second component
counts reconnect attempts made. -/
def api_get_current_temperature (reconnect_ok : Bool) (read_val : Option ℚ)
    (st : VolcanoState) : Option ℚ × ℕ :=
  if is_connected st = true then (read_val, 0)
  else if reconnect_ok = true then (read_val, 1)
  else (none, 1)

/-- `VolcanoCoordinator.get_current_temperature` (src/__init__.py lines
235-241): delegate to the API getter and catch every exception, returning
`None` in that case (the spec-modelled getter never raises, so the
wrapper returns its value unchanged). -/
def coordinator_get_current_temperature (reconnect_ok : Bool) (read_val : Option ℚ)
    (st : VolcanoState) : Option ℚ :=
  (api_get_current_temperature reconnect_ok read_val st).1

/-- An API state as it looks right after a successful `connect`: internal
flag set and client reporting itself connected. -/
def connected_state : VolcanoState :=
  { init_volcano_state with client := some ⟨true⟩, is_connected_flag := true }

/-- A device whose writes succeed and whose reads all return the status
payload `[0x20, 0x00]` (16-bit little-endian value `0x0020`, bit 5 set). -/
def status_bit5_device : Device :=
  ⟨fun _ _ => true, fun _ => some [0x20, 0x00]⟩

/-- C1: `is_connected` is true only when both the internal flag is set and
the underlying client reports itself connected, and every public
read/write operation of the BLE API (`set_target_temperature`,
`set_heat_on/off`, `set_fan_on/off`, `set_screen_brightness`, the
firmware/serial/hours/minutes getters and `get_device_state`) first
evaluates it and, when it is false, fails fast with a
`VolcanoConnectionError` while issuing no GATT I/O, attempting no
reconnect, and leaving the object state unchanged. -/
theorem c1_fail_fast_when_disconnected :
    (∀ st : VolcanoState, is_connected st = true ↔
      st.is_connected_flag = true ∧ ∃ c, st.client = some c ∧ c.client_connected = true) ∧
    (∀ (dev : Device) (st : VolcanoState) (T : ℚ), is_connected st = false →
      set_target_temperature dev st T = ⟨some .volcano_connection_error, none, st, []⟩) ∧
    (∀ (dev : Device) (st : VolcanoState), is_connected st = false →
      set_heat_on dev st = ⟨some .volcano_connection_error, none, st, []⟩) ∧
    (∀ (dev : Device) (st : VolcanoState), is_connected st = false →
      set_heat_off dev st = ⟨some .volcano_connection_error, none, st, []⟩) ∧
    (∀ (dev : Device) (st : VolcanoState), is_connected st = false →
      set_fan_on dev st = ⟨some .volcano_connection_error, none, st, []⟩) ∧
    (∀ (dev : Device) (st : VolcanoState), is_connected st = false →
      set_fan_off dev st = ⟨some .volcano_connection_error, none, st, []⟩) ∧
    (∀ (dev : Device) (st : VolcanoState) (b : ℤ), is_connected st = false →
      set_screen_brightness dev st b = ⟨some .volcano_connection_error, none, st, []⟩) ∧
    (∀ (dev : Device) (st : VolcanoState), is_connected st = false →
      get_ble_firmware_version dev st = ⟨some .volcano_connection_error, none, st, []⟩) ∧
    (∀ (dev : Device) (st : VolcanoState), is_connected st = false →
      get_volcano_firmware_version dev st = ⟨some .volcano_connection_error, none, st, []⟩) ∧
    (∀ (dev : Device) (st : VolcanoState), is_connected st = false →
      get_serial_number dev st = ⟨some .volcano_connection_error, none, st, []⟩) ∧
    (∀ (dev : Device) (st : VolcanoState), is_connected st = false →
      get_hours_of_operation dev st = ⟨some .volcano_connection_error, none, st, []⟩) ∧
    (∀ (dev : Device) (st : VolcanoState), is_connected st = false →
      get_minutes_of_operation dev st = ⟨some .volcano_connection_error, none, st, []⟩) ∧
    (∀ (dev : Device) (st : VolcanoState), is_connected st = false →
      get_device_state dev st = ⟨some .volcano_connection_error, none, st, []⟩) := by
  refine ⟨?_, ?_, ?_, ?_, ?_, ?_, ?_, ?_, ?_, ?_, ?_, ?_, ?_⟩
  · intro st
    cases h : st.client with
    | none => simp [is_connected, h]
    | some c => simp [is_connected, h]
  · intro dev st T h; simp [set_target_temperature, h]
  · intro dev st h; simp [set_heat_on, h]
  · intro dev st h; simp [set_heat_off, h]
  · intro dev st h; simp [set_fan_on, h]
  · intro dev st h; simp [set_fan_off, h]
  · intro dev st b h; simp [set_screen_brightness, h]
  · intro dev st h; simp [get_ble_firmware_version, read_string_char, h]
  · intro dev st h; simp [get_volcano_firmware_version, read_string_char, h]
  · intro dev st h; simp [get_serial_number, read_string_char, h]
  · intro dev st h; simp [get_hours_of_operation, read_u16_char, h]
  · intro dev st h; simp [get_minutes_of_operation, read_u16_char, h]
  · intro dev st h; simp [get_device_state, h]

/-- Witness for C1 at a concrete disconnected state. -/
theorem c1_witness :
    set_target_temperature status_bit5_device init_volcano_state 100
      = ⟨some .volcano_connection_error, none, init_volcano_state, []⟩ :=
  c1_fail_fast_when_disconnected.2.1 status_bit5_device init_volcano_state 100 rfl

/-- C9: with the device connected, `set_target_temperature` rejects every
temperature outside [40, 230] with a `ValueError` before issuing any GATT
write, leaving the cached target (indeed the whole object state)
unchanged. -/
theorem c9_out_of_range_rejected (dev : Device) (st : VolcanoState) (T : ℚ)
    (hc : is_connected st = true) (hT : T < 40 ∨ 230 < T) :
    set_target_temperature dev st T = ⟨some .value_error, none, st, []⟩ := by
  have hrange : ¬ (40 ≤ T ∧ T ≤ 230) := by
    rcases hT with h | h
    · exact fun hand => absurd hand.1 (by linarith)
    · exact fun hand => absurd hand.2 (by linarith)
  simp [set_target_temperature, hc, hrange]

/-- Witness for C9 at a connected state and T = 300. -/
theorem c9_witness :
    set_target_temperature status_bit5_device connected_state 300
      = ⟨some .value_error, none, connected_state, []⟩ :=
  c9_out_of_range_rejected status_bit5_device connected_state 300 rfl
    (Or.inr (by decide))

/-- C10: `__init__` never assigns `_status_update_callback` (the attribute
slot is unset), the only callback setter `set_disconnect_callback` leaves
that slot untouched, and on every instance whose slot is still unset the
status-notification handler raises `AttributeError` before decoding
anything — so the cached heat/fan booleans are never updated from a push
notification. -/
theorem c10_status_callback_never_assigned :
    init_volcano_state.status_update_callback = none ∧
    (∀ (st : VolcanoState) (cb : Unit),
      (set_disconnect_callback st cb).status_update_callback = st.status_update_callback) ∧
    (∀ (st : VolcanoState) (data : List ℕ), st.status_update_callback = none →
      handle_status_notification st data = .error .attribute_error) := by
  refine ⟨rfl, fun st cb => rfl, fun st data h => ?_⟩
  simp [handle_status_notification, h]

/-- Witness for C10 on a fresh instance and a well-formed status payload. -/
theorem c10_witness :
    handle_status_notification init_volcano_state [32, 0] = .error .attribute_error :=
  c10_status_callback_never_assigned.2.2 init_volcano_state [32, 0] rfl

/-- C2 (code bug evidence): on the status payload `[0x20, 0x00]` (16-bit
little-endian value `0x0020`, bit 5 set, bit 13 clear) the notification
handler and the polled register read decode heat=on / fan=off, as do
`0x2000 → heat=off/fan=on`, `0x0000 → both off`, `0xFFFF → both on`;
but `get_device_state` on the same payload decodes byte 0 with masks
`0x01`/`0x02` and reports heat=off / fan=off. -/
theorem c2_get_device_state_mask_divergence :
    ((handle_status_notification
        { connected_state with status_update_callback := some (some ()) }
        [0x20, 0x00]).toOption.map (fun r => (r.1.heat_on, r.1.fan_on))
      = some (true, false)) ∧
    ((handle_status_notification
        { connected_state with status_update_callback := some (some ()) }
        [0x00, 0x20]).toOption.map (fun r => (r.1.heat_on, r.1.fan_on))
      = some (false, true)) ∧
    ((handle_status_notification
        { connected_state with status_update_callback := some (some ()) }
        [0x00, 0x00]).toOption.map (fun r => (r.1.heat_on, r.1.fan_on))
      = some (false, false)) ∧
    ((handle_status_notification
        { connected_state with status_update_callback := some (some ()) }
        [0xFF, 0xFF]).toOption.map (fun r => (r.1.heat_on, r.1.fan_on))
      = some (true, true)) ∧
    ((update_status_from_register status_bit5_device connected_state).state.heat_on = true ∧
     (update_status_from_register status_bit5_device connected_state).state.fan_on = false) ∧
    ((get_device_state status_bit5_device connected_state).value.map
        (fun s => (s.heat_on, s.fan_on))
      = some (false, false)) := by
  exact ⟨by decide, by decide, by decide, by decide, ⟨rfl, rfl⟩, by decide⟩

/-- C5: when the device is not connected, `get_current_temperature` makes
exactly one reconnect attempt and, if that attempt fails, the
coordinator-level getter returns `None` (it never raises); when the
device is already connected, no reconnect attempt is made at all. -/
theorem c5_reconnect_on_read (st : VolcanoState) (reconnect_ok : Bool)
    (read_val : Option ℚ) :
    (is_connected st = true →
      (api_get_current_temperature reconnect_ok read_val st).2 = 0) ∧
    (is_connected st = false →
      (api_get_current_temperature reconnect_ok read_val st).2 = 1) ∧
    (is_connected st = false → reconnect_ok = false →
      coordinator_get_current_temperature reconnect_ok read_val st = none) := by
  refine ⟨fun h => ?_, fun h => ?_, fun h hr => ?_⟩
  · simp [api_get_current_temperature, h]
  · cases hr : reconnect_ok <;>
      simp [api_get_current_temperature, h, hr]
  · simp [coordinator_get_current_temperature, api_get_current_temperature, h, hr]

/-- Witness for C5: disconnected fresh instance, failing reconnect. -/
theorem c5_witness :
    coordinator_get_current_temperature false (some 180) init_volcano_state = none :=
  (c5_reconnect_on_read init_volcano_state false (some 180)).2.2 rfl rfl

/-- C6: the dynamic poll interval is the first matching rule of the
priority table — fan on → 1; else heat on and current within the last
10 °C of a set target → 1; else heat on, or target set and current below
target → 2; else current above 50 °C → 3; else 5 — including the four
table examples from the spec. -/
theorem c6_dynamic_interval :
    (∀ (h : Bool) (c t : ℚ), get_dynamic_update_interval h true c t = 1) ∧
    (∀ c t : ℚ, 0 < t → t - 10 < c → get_dynamic_update_interval true false c t = 1) ∧
    (∀ (h : Bool) (c t : ℚ), ¬ (h = true ∧ 0 < t ∧ t - 10 < c) →
      (h = true ∨ (0 < t ∧ c < t)) → get_dynamic_update_interval h false c t = 2) ∧
    (∀ (h : Bool) (c t : ℚ), ¬ (h = true ∧ 0 < t ∧ t - 10 < c) →
      ¬ (h = true ∨ (0 < t ∧ c < t)) → 50 < c →
      get_dynamic_update_interval h false c t = 3) ∧
    (∀ (h : Bool) (c t : ℚ), ¬ (h = true ∧ 0 < t ∧ t - 10 < c) →
      ¬ (h = true ∨ (0 < t ∧ c < t)) → c ≤ 50 →
      get_dynamic_update_interval h false c t = 5) ∧
    get_dynamic_update_interval false false 0 0 = 5 ∧
    get_dynamic_update_interval true false 195 200 = 1 ∧
    get_dynamic_update_interval true false 150 200 = 2 := by
  refine ⟨?_, ?_, ?_, ?_, ?_, ?_, ?_, ?_⟩
  · intro h c t
    simp [get_dynamic_update_interval, fast_update_interval]
  · intro c t h1 h2
    simp [get_dynamic_update_interval, fast_update_interval, h1, h2]
  · intro h c t h1 h2
    simp only [get_dynamic_update_interval, active_update_interval]
    rw [if_neg (by simp), if_neg h1, if_pos h2]
  · intro h c t h1 h2 h3
    simp only [get_dynamic_update_interval]
    rw [if_neg (by simp), if_neg h1, if_neg h2, if_pos h3]
  · intro h c t h1 h2 h3
    simp only [get_dynamic_update_interval, base_update_interval]
    rw [if_neg (by simp), if_neg h1, if_neg h2, if_neg (by linarith)]
  · norm_num [get_dynamic_update_interval, base_update_interval]
  · norm_num [get_dynamic_update_interval, fast_update_interval]
  · norm_num [get_dynamic_update_interval, active_update_interval]

/-- Witness for C6: idle state (heat off, fan off, cold, no target) polls
every 5 seconds. -/
theorem c6_witness : get_dynamic_update_interval false false 20 0 = 5 :=
  c6_dynamic_interval.2.2.2.2.1 false 20 0 (by simp) (by simp) (by decide)

/-- C7: a `session_started` event fires on a poll exactly when the
previous current temperature exists and was below 50 °C, the new current
temperature is above 60 °C, the target is above 100 °C and no session is
open; and the poll sequence [30, 45, 70] at target 150 fires exactly one
event, on the third sample. -/
theorem c7_session_start_detection :
    (∀ (st : SessionState) (c t : ℚ), (detect_session_start st c t).2 = true ↔
      (∃ l, st.last_temp = some l ∧ l < 50) ∧ 60 < c ∧ 100 < t ∧
        st.session_open = false) ∧
    poll_fires init_session_state [30, 45, 70] 150 = [false, false, true] := by
  constructor
  · intro st c t
    cases h : st.last_temp with
    | none => simp [detect_session_start, h]
    | some l =>
      by_cases hc : l < 50 ∧ 60 < c ∧ 100 < t ∧ st.session_open = false
      · simp [detect_session_start, h, hc]
      · have hval : (detect_session_start st c t).2 = false := by
          simp [detect_session_start, h, hc]
        rw [hval]
        simp only [Bool.false_eq_true, false_iff]
        rintro ⟨⟨l2, hl2, hlt⟩, h60, h100, hopen⟩
        obtain rfl : l = l2 := by injection hl2
        exact hc ⟨hlt, h60, h100, hopen⟩
  · decide

/-- Decoding the two packed little-endian bytes of a 16-bit value through
the temperature-notification handler recovers `v / 10`. -/
theorem decode_pack (v : ℕ) (hv : v < 65536) (st : VolcanoState) :
    (handle_temperature_notification st (pack_u16_le v)).current_temperature
      = (v : ℚ) / 10 := by
  have hdiv : v / 256 % 256 = v / 256 := Nat.mod_eq_of_lt (by omega)
  have hbytes : (v % 256) + 256 * (v / 256) = v := Nat.mod_add_div v 256
  simp only [handle_temperature_notification, pack_u16_le, hdiv]
  congr 1
  exact_mod_cast hbytes

/-- C3 (counterexample): at T = 40.56 °C (inside [40, 230]) the wire value
written by `set_target_temperature` is `int(T*10) = 405`, not
`round(T*10) = 406`. -/
theorem c3_counterexample :
    (40 ≤ (4056/100 : ℚ) ∧ (4056/100 : ℚ) ≤ 230) ∧
    encode_target_temp (4056/100) = 405 ∧
    spec_round_encode (4056/100) = 406 := by
  refine ⟨⟨by norm_num, by norm_num⟩, ?_, ?_⟩
  · have h1 : py_int ((4056/100 : ℚ) * 10) = 405 := by norm_num [py_int]
    simp [encode_target_temp, h1]
  · norm_num [spec_round_encode, py_round, round_eq]

/-- C3 (amended): for every T in [40, 230], `set_target_temperature`
encodes T as the 16-bit little-endian value `int(T * 10)` (truncation,
not rounding), and decoding that wire value as `raw / 10.0` through the
temperature-notification handler recovers T to within 0.1 °C:
`0 ≤ T - decoded < 1/10`. -/
theorem c3_truncation_roundtrip (T : ℚ) (h40 : 40 ≤ T) (h230 : T ≤ 230)
    (st : VolcanoState) :
    0 ≤ T - (handle_temperature_notification st
        (pack_u16_le (encode_target_temp T))).current_temperature ∧
    T - (handle_temperature_notification st
        (pack_u16_le (encode_target_temp T))).current_temperature < 1/10 := by
  have hT0 : (0:ℚ) ≤ T * 10 := by linarith
  have henc : encode_target_temp T = (⌊T * 10⌋).toNat := by
    simp [encode_target_temp, py_int, hT0]
  have hz0 : 0 ≤ ⌊T * 10⌋ := Int.floor_nonneg.mpr hT0
  have hzle : ((⌊T * 10⌋ : ℤ) : ℚ) ≤ T * 10 := Int.floor_le _
  have hzgt : T * 10 < ⌊T * 10⌋ + 1 := Int.lt_floor_add_one _
  have hz2300 : ⌊T * 10⌋ ≤ 2300 := by
    have h1 : ((⌊T * 10⌋ : ℤ) : ℚ) ≤ 2300 := le_trans hzle (by linarith)
    exact_mod_cast h1
  have hvz : ((⌊T * 10⌋).toNat : ℤ) = ⌊T * 10⌋ := Int.toNat_of_nonneg hz0
  have hv65536 : (⌊T * 10⌋).toNat < 65536 := by omega
  have hvQ : (((⌊T * 10⌋).toNat : ℕ) : ℚ) = ((⌊T * 10⌋ : ℤ) : ℚ) := by
    exact_mod_cast hvz
  rw [henc, decode_pack _ hv65536 st, hvQ]
  constructor
  · linarith
  · linarith

/-- Witness for C3 at T = 100. -/
theorem c3_witness :
    (40:ℚ) ≤ 100 ∧ (100:ℚ) ≤ 230 ∧
    (0 ≤ 100 - (handle_temperature_notification init_volcano_state
        (pack_u16_le (encode_target_temp 100))).current_temperature ∧
      100 - (handle_temperature_notification init_volcano_state
        (pack_u16_le (encode_target_temp 100))).current_temperature < 1/10) :=
  ⟨by decide, by decide,
    c3_truncation_roundtrip 100 (by decide) (by decide) init_volcano_state⟩

/-- `connect` makes at most as many attempts as the retry budget. -/
theorem connect_go_attempts_le :
    ∀ (outcomes : List AttemptOutcome) (client : Option ClientState) (flag : Bool),
      (connect_go outcomes client flag).attempts ≤ outcomes.length := by
  intro outcomes
  induction outcomes with
  | nil => intro client flag; simp [connect_go]
  | cons o rest ih =>
    intro client flag
    cases o <;> cases rest <;>
      simp only [connect_go, List.length_cons] <;>
      first
        | omega
        | exact Nat.succ_le_succ (ih _ _)

/-- When no attempt succeeds, `connect` uses every attempt of the budget. -/
theorem connect_go_attempts_all_fail :
    ∀ (outcomes : List AttemptOutcome), (∀ x ∈ outcomes, x ≠ .success) →
      ∀ (client : Option ClientState) (flag : Bool),
        (connect_go outcomes client flag).attempts = outcomes.length := by
  intro outcomes
  induction outcomes with
  | nil => intro hf client flag; simp [connect_go]
  | cons o rest ih =>
    intro hf client flag
    have hns : o ≠ .success := hf o (by simp)
    have hf2 : ∀ x ∈ rest, x ≠ AttemptOutcome.success :=
      fun x hx => hf x (List.mem_cons_of_mem _ hx)
    cases o <;> cases rest <;>
      simp only [connect_go, List.length_cons] <;>
      first
        | exact absurd rfl hns
        | rfl
        | exact congrArg (· + 1) (ih hf2 _ _)

/-- When no attempt succeeds, `connect` sleeps 2 seconds between every
pair of consecutive attempts: one sleep fewer than attempts. -/
theorem connect_go_sleeps_all_fail :
    ∀ (outcomes : List AttemptOutcome), (∀ x ∈ outcomes, x ≠ .success) →
      ∀ (client : Option ClientState) (flag : Bool),
        (connect_go outcomes client flag).sleeps = outcomes.length - 1 := by
  intro outcomes
  induction outcomes with
  | nil => intro hf client flag; simp [connect_go]
  | cons o rest ih =>
    intro hf client flag
    have hns : o ≠ .success := hf o (by simp)
    have hf2 : ∀ x ∈ rest, x ≠ AttemptOutcome.success :=
      fun x hx => hf x (List.mem_cons_of_mem _ hx)
    cases o <;> cases rest <;>
      simp only [connect_go, List.length_cons] <;>
      first
        | exact absurd rfl hns
        | rfl
        | exact congrArg (· + 1) (ih hf2 _ _)

/-- When no attempt succeeds, the final result of `connect` depends only
on how the last attempt failed: a last attempt that raised yields a
`VolcanoConnectionError` carrying that error, while a last attempt whose
client merely reported not-connected yields a plain `False` return with
the client torn down. -/
theorem connect_go_result_all_fail :
    ∀ (outcomes : List AttemptOutcome) (o : AttemptOutcome),
      outcomes.getLast? = some o → (∀ x ∈ outcomes, x ≠ .success) →
      ∀ (client : Option ClientState) (flag : Bool),
        (o = .connected_false →
          (connect_go outcomes client flag).result = .ok false ∧
          (connect_go outcomes client flag).client = none) ∧
        (o ≠ .connected_false →
          (connect_go outcomes client flag).result = .error o) := by
  intro outcomes
  induction outcomes with
  | nil => intro o h; simp at h
  | cons o1 rest ih =>
    intro o hlast hf client flag
    have hns : o1 ≠ .success := hf o1 (by simp)
    have hf2 : ∀ x ∈ rest, x ≠ AttemptOutcome.success :=
      fun x hx => hf x (List.mem_cons_of_mem _ hx)
    cases rest with
    | nil =>
      have ho : o1 = o := by simpa using hlast
      subst ho
      cases o1 <;>
        first
          | exact absurd rfl hns
          | (constructor
             · intro hcf
               first
                 | exact ⟨rfl, rfl⟩
                 | exact absurd hcf (by simp)
             · intro hncf
               first
                 | rfl
                 | exact absurd rfl hncf)
    | cons o2 rest2 =>
      have hlast2 : (o2 :: rest2).getLast? = some o := by
        rw [List.getLast?_cons_cons] at hlast; exact hlast
      cases o1 with
      | success => exact absurd rfl hns
      | connected_false =>
        have IH := ih o hlast2 hf2 none flag
        exact ⟨fun hcf => ⟨(IH.1 hcf).1, (IH.1 hcf).2⟩, fun hncf => IH.2 hncf⟩
      | device_not_found =>
        have IH := ih o hlast2 hf2 none false
        exact ⟨fun hcf => ⟨(IH.1 hcf).1, (IH.1 hcf).2⟩, fun hncf => IH.2 hncf⟩
      | bleak_error =>
        have IH := ih o hlast2 hf2 none false
        exact ⟨fun hcf => ⟨(IH.1 hcf).1, (IH.1 hcf).2⟩, fun hncf => IH.2 hncf⟩
      | other_error =>
        have IH := ih o hlast2 hf2 none false
        exact ⟨fun hcf => ⟨(IH.1 hcf).1, (IH.1 hcf).2⟩, fun hncf => IH.2 hncf⟩

/-- C4 (counterexample): with a single attempt whose `client.connect()`
completes but leaves the client reporting not-connected, `connect`
returns `False` normally instead of raising — contradicting "it never
returns normally after exhausting all retries without success". -/
theorem c4_counterexample :
    (connect [.connected_false]).result = .ok false ∧
    AttemptOutcome.connected_false ≠ AttemptOutcome.success :=
  ⟨rfl, by simp⟩

/-- C4 (amended): `connect` makes at most `max_retries` attempts; when no
attempt succeeds it uses the whole budget with a 2-second sleep between
consecutive attempts (one sleep fewer than attempts), and the outcome of
the last attempt decides the result: a raising failure makes `connect`
raise a `VolcanoConnectionError` carrying that last underlying error,
while a non-raising failure (client reports not-connected) makes it
return `False` with the client torn down. -/
theorem c4_retry_contract :
    (∀ (outcomes : List AttemptOutcome) (client : Option ClientState) (flag : Bool),
      (connect_go outcomes client flag).attempts ≤ outcomes.length) ∧
    (∀ (outcomes : List AttemptOutcome), (∀ x ∈ outcomes, x ≠ .success) →
      ∀ (client : Option ClientState) (flag : Bool),
        (connect_go outcomes client flag).attempts = outcomes.length ∧
        (connect_go outcomes client flag).sleeps = outcomes.length - 1) ∧
    (∀ (outcomes : List AttemptOutcome) (o : AttemptOutcome),
      outcomes.getLast? = some o → (∀ x ∈ outcomes, x ≠ .success) →
      ∀ (client : Option ClientState) (flag : Bool),
        (o = .connected_false →
          (connect_go outcomes client flag).result = .ok false ∧
          (connect_go outcomes client flag).client = none) ∧
        (o ≠ .connected_false →
          (connect_go outcomes client flag).result = .error o)) :=
  ⟨connect_go_attempts_le,
   fun outcomes hf client flag =>
     ⟨connect_go_attempts_all_fail outcomes hf client flag,
      connect_go_sleeps_all_fail outcomes hf client flag⟩,
   connect_go_result_all_fail⟩

/-- Witness for C4: two attempts both failing with `BleakError` make two
attempts, sleep once, and raise the last error. -/
theorem c4_witness :
    (connect_go [.bleak_error, .bleak_error] none false).attempts = 2 ∧
    (connect_go [.bleak_error, .bleak_error] none false).sleeps = 1 ∧
    (connect_go [.bleak_error, .bleak_error] none false).result
      = .error .bleak_error :=
  ⟨(c4_retry_contract.2.1 [.bleak_error, .bleak_error] (by decide) none false).1,
   (c4_retry_contract.2.1 [.bleak_error, .bleak_error] (by decide) none false).2,
   (c4_retry_contract.2.2 [.bleak_error, .bleak_error] .bleak_error rfl
      (by decide) none false).2 (by simp)⟩

/-- Folding session-duration appends never evicts while the buffer stays
within its 100-entry cap. -/
theorem record_no_evict :
    ∀ (ds l : List ℚ), l.length + ds.length ≤ 100 →
      List.foldl record_session_duration l ds = l ++ ds := by
  intro ds
  induction ds with
  | nil => intro l h; simp
  | cons d rest ih =>
    intro l h
    have hlen : ¬ (100 < (l ++ [d]).length) := by
      simp only [List.length_append, List.length_cons, List.length_nil]
      simp only [List.length_cons] at h
      omega
    have hstep : record_session_duration l d = l ++ [d] := by
      show (if 100 < (l ++ [d]).length then (l ++ [d]).drop 1 else (l ++ [d])) = l ++ [d]
      rw [if_neg hlen]
    calc List.foldl record_session_duration l (d :: rest)
        = List.foldl record_session_duration (l ++ [d]) rest := by
          simp [List.foldl_cons, hstep]
      _ = (l ++ [d]) ++ rest := by
          apply ih
          simp only [List.length_append, List.length_cons, List.length_nil]
          simp only [List.length_cons] at h
          omega
      _ = l ++ (d :: rest) := by simp

/-- C8: one session-end append keeps the duration list within 100 entries
(evicting the oldest when the 101st would be retained), and after
appending 101 durations to an empty list the buffer holds exactly the
last 100 in order, with the rolling average computed over exactly those
100 entries. -/
theorem c8_ring_buffer :
    (∀ (l : List ℚ) (d : ℚ), l.length ≤ 100 →
      (record_session_duration l d).length ≤ 100) ∧
    (∀ ds : List ℚ, ds.length = 101 →
      List.foldl record_session_duration [] ds = ds.drop 1 ∧
      (List.foldl record_session_duration [] ds).length = 100 ∧
      average_session_duration (List.foldl record_session_duration [] ds)
        = some (py_round1 ((ds.drop 1).sum / 100))) := by
  constructor
  · intro l d h
    show (if 100 < (l ++ [d]).length then (l ++ [d]).drop 1 else (l ++ [d])).length ≤ 100
    by_cases hc : 100 < (l ++ [d]).length
    · rw [if_pos hc]
      simp only [List.length_drop, List.length_append, List.length_cons, List.length_nil]
      omega
    · rw [if_neg hc]
      simp only [List.length_append, List.length_cons, List.length_nil] at hc ⊢
      omega
  · intro ds hlen
    have hne : ds ≠ [] := by
      intro h; rw [h] at hlen; simp at hlen
    have hdecomp : ds.dropLast ++ [ds.getLast hne] = ds :=
      List.dropLast_append_getLast hne
    have hdl : ds.dropLast.length = 100 := by
      simp [List.length_dropLast, hlen]
    have hfold : List.foldl record_session_duration [] ds = ds.drop 1 := by
      conv_lhs => rw [← hdecomp]
      rw [List.foldl_append]
      rw [record_no_evict ds.dropLast [] (by simp [hdl])]
      simp only [List.nil_append, List.foldl_cons, List.foldl_nil]
      have hlen2 : 100 < (ds.dropLast ++ [ds.getLast hne]).length := by
        simp [List.length_append, hdl]
      simp only [record_session_duration, if_pos hlen2]
      rw [hdecomp]
    have hlen100 : (ds.drop 1).length = 100 := by
      simp [List.length_drop, hlen]
    refine ⟨hfold, by rw [hfold]; exact hlen100, ?_⟩
    rw [hfold]
    have hne2 : ds.drop 1 ≠ [] := by
      intro h; rw [h] at hlen100; simp at hlen100
    simp only [average_session_duration, if_neg hne2, hlen100]
    norm_num

/-- Witness for C8: appending 101 identical durations retains the last
100 and averages over them. -/
theorem c8_witness :
    List.foldl record_session_duration [] (List.replicate 101 (2:ℚ))
      = (List.replicate 101 (2:ℚ)).drop 1 ∧
    (List.foldl record_session_duration [] (List.replicate 101 (2:ℚ))).length = 100 ∧
    average_session_duration (List.foldl record_session_duration [] (List.replicate 101 (2:ℚ)))
      = some (py_round1 (((List.replicate 101 (2:ℚ)).drop 1).sum / 100)) :=
  c8_ring_buffer.2 (List.replicate 101 2) (by simp)

end VolcanoHybrid
